import Mathlib

/-!
# Verification of the taboola-backstage-sdk core

A shallow embedding, in Lean 4, of the core logic of the
taboola-backstage-sdk TypeScript client:

* the error taxonomy and the pure mapping `parseApiError` together with its
  helpers `extractErrorMessage`, `extractFieldErrors`, `extractRetryAfter`
  (from `src/errors/index.ts`);
* the OAuth token manager `OAuthManager` (from `src/auth/oauth.ts`), modelled
  as an explicit state machine whose atomic steps are the synchronous
  segments of the JS event loop execution;
* the HTTP transport `HttpClient` (from `src/utils/http.ts`): the
  `afterResponse` hook handling 401 recovery, and the successful-response
  interpretation in `request`;
* the `TaboolaClient` constructor and its `baseUrl` getter
  (from `src/client.ts`).

JavaScript runtime values that cross these functions (`unknown` response
bodies) are modelled by the inductive `JsValue`; JS numbers that take part in
the claims are integers, modelled by `Int`.
-/

/-! ## JavaScript values

The response bodies handled by `parseApiError` have TypeScript type
`unknown`.  We model the JS value universe by an inductive: `undef` is the
JS `undefined`, `null` the JS `null`; objects are association lists of
string-keyed fields.  Field access `resp.message` on a non-object (or a
missing field) yields `undefined`, modelled by `Option.none`. -/

inductive JsValue : Type where
  | undef : JsValue
  | null : JsValue
  | bool : Bool → JsValue
  | num : Int → JsValue
  | str : String → JsValue
  | arr : List JsValue → JsValue
  | obj : List (String × JsValue) → JsValue

namespace JsValue

/-- Field lookup, `v[k]` in JS: defined (some) only on objects having the
field.  Arrays do have properties in JS, but none of the named fields the
source reads (`message`, `error`, `error_description`, `errors`,
`retry_after`), so for these lookups an array behaves like an empty object. -/
def getField : JsValue → String → Option JsValue
  | obj fields, k => fields.lookup k
  | _, _ => none

/-- Models the JS test `v && typeof v === "object"`: truthy and of type
object.  `null` has typeof object but is falsy; arrays are objects. -/
def isTruthyObject : JsValue → Bool
  | arr _ => true
  | obj _ => true
  | _ => false

/-- JS truthiness of a value. -/
def truthy : JsValue → Bool
  | undef => false
  | null => false
  | bool b => b
  | num n => n != 0
  | str s => s ≠ ""
  | arr _ => true
  | obj _ => true

end JsValue

/-! ## Error taxonomy

The source (src/errors/index.ts) is a class hierarchy: `TaboolaError` with
subclasses `TaboolaAuthError`, `TaboolaValidationError`,
`TaboolaNotFoundError`, `TaboolaRateLimitError`, `TaboolaForbiddenError`,
`TaboolaServerError`.  We model an error instance as a record carrying a
`kind` tag (which subclass constructed it — what `instanceof`/`name`
distinguishes at runtime) and the fields stored by the constructors. -/

inductive ErrorKind : Type where
  | generic
  | auth
  | validation
  | notFound
  | rateLimit
  | forbidden
  | server
deriving Repr, DecidableEq

structure TaboolaErrorModel : Type where
  kind : ErrorKind
  message : String
  statusCode : Option Int
  response : JsValue
  url : Option String
  /-- only set by `TaboolaValidationError` -/
  fieldErrors : Option JsValue := none
  /-- only set by `TaboolaRateLimitError` -/
  retryAfter : Option Int := none

/-- Models `new TaboolaAuthError(message, options)`: statusCode hardcoded to 401. -/
def mkTaboolaAuthError (message : String) (response : JsValue := .undef)
    (url : Option String := none) : TaboolaErrorModel :=
  { kind := .auth, message, statusCode := some 401, response, url }

/-! ## parseApiError and its helpers (src/errors/index.ts lines 303–384) -/

/-- Models `extractErrorMessage(response)`: prefer `message`, then `error`, then
`error_description`, each only when it is a string; otherwise the literal
`"Unknown error"`.  The guard `response && typeof response === "object"` is
`JsValue.isTruthyObject`. -/
def extractErrorMessage (response : JsValue) : String :=
  if response.isTruthyObject then
    match response.getField "message" with
    | some (.str m) => m
    | _ =>
      match response.getField "error" with
      | some (.str e) => e
      | _ =>
        match response.getField "error_description" with
        | some (.str d) => d
        | _ => "Unknown error"
  else "Unknown error"

/-- Models `extractFieldErrors(response)`: returns `resp.errors` verbatim when it is
a truthy object (`resp.errors && typeof resp.errors === "object"`), else
undefined. -/
def extractFieldErrors (response : JsValue) : Option JsValue :=
  if response.isTruthyObject then
    match response.getField "errors" with
    | some e => if e.isTruthyObject then some e else none
    | none => none
  else none

/-- Models `extractRetryAfter(response)`: returns `resp.retry_after` when
`typeof resp.retry_after === "number"`, else undefined. -/
def extractRetryAfter (response : JsValue) : Option Int :=
  if response.isTruthyObject then
    match response.getField "retry_after" with
    | some (.num n) => some n
    | _ => none
  else none

/-- Models `parseApiError(statusCode, response, url)`: the switch on the status
code.  Each subclass constructor stores its fixed status code (400, 401,
403, 404, 429); the default branch keeps the incoming status, routing
`statusCode >= 500` to `TaboolaServerError` and the rest to the base
`TaboolaError`.  The source binds `message = extractErrorMessage(response)`
once before the switch; being pure, it is inlined per branch here. -/
def parseApiError (statusCode : Int) (response : JsValue) (url : String) :
    TaboolaErrorModel :=
  if statusCode = 400 then
    { kind := .validation, message := extractErrorMessage response,
      statusCode := some 400, response, url := some url,
      fieldErrors := extractFieldErrors response }
  else if statusCode = 401 then
    { kind := .auth, message := extractErrorMessage response,
      statusCode := some 401, response, url := some url }
  else if statusCode = 403 then
    { kind := .forbidden, message := extractErrorMessage response,
      statusCode := some 403, response, url := some url }
  else if statusCode = 404 then
    { kind := .notFound, message := extractErrorMessage response,
      statusCode := some 404, response, url := some url }
  else if statusCode = 429 then
    { kind := .rateLimit, message := extractErrorMessage response,
      statusCode := some 429, response, url := some url,
      retryAfter := extractRetryAfter response }
  else if statusCode ≥ 500 then
    { kind := .server, message := extractErrorMessage response,
      statusCode := some statusCode, response, url := some url }
  else
    { kind := .generic, message := extractErrorMessage response,
      statusCode := some statusCode, response, url := some url }

/-! ## OAuthManager (src/auth/oauth.ts)

The mutable state of the manager is `storedToken` and `tokenPromise`.  The host
runtime is a single-threaded event loop: a JS function body runs atomically
between `await` points.  In `getAccessToken`, every statement from entry up
to and including the assignment `this.tokenPromise = this.fetchToken()` is
one synchronous segment (the body of `fetchToken` up to its first `await fetch`
runs inside that segment as well), so we model it as one atomic step,
`getTokenStart`.  The remaining suspended pieces are separate steps:

* `fetchTokenCompletes` — the tail of `fetchToken` after the network
  response arrived (stores `storedToken`, resolves the promise);
* `getTokenFinally` — the `finally { this.tokenPromise = null }` of the initiator,
  when its `await this.tokenPromise` resumes.

Promises are identified by allocation order (`nextPromiseId`); `fetchCount`
counts how many token-fetch network calls have been initiated, so that the
single-flight claim can be stated as "the fetch counter advanced by one". -/

/-- Models `StoredToken` (src/types/auth.ts): the cached token value with its
absolute expiry time in epoch milliseconds. -/
structure StoredToken : Type where
  accessToken : String
  expiresAt : Int
deriving Repr, DecidableEq

/-- Constant `TOKEN_EXPIRY_BUFFER_MS = 5 * 60 * 1000` (oauth.ts line 12). -/
def TOKEN_EXPIRY_BUFFER_MS : Int := 5 * 60 * 1000

/-- Models `isTokenExpired(token)` (oauth.ts lines 73–75):
`Date.now() >= token.expiresAt - TOKEN_EXPIRY_BUFFER_MS`, with `Date.now()`
passed explicitly as `now`. -/
def isTokenExpired (now : Int) (token : StoredToken) : Bool :=
  now ≥ token.expiresAt - TOKEN_EXPIRY_BUFFER_MS

/-- The `OAuthManager` instance state, plus the two ghost counters
(`fetchCount`, `nextPromiseId`) used to observe fetches and identify
promises. -/
structure ManagerState : Type where
  storedToken : Option StoredToken
  tokenPromise : Option Nat
  fetchCount : Nat
  nextPromiseId : Nat
deriving Repr, DecidableEq

/-- What a `getAccessToken()` call does in its first synchronous segment:
either it returns the cached token right away, or it continues by awaiting
the promise `pid` (the pre-existing in-flight one, or the one it just
created). -/
inductive GetTokenOutcome : Type where
  | cached (token : String)
  | awaitPromise (pid : Nat)
deriving Repr, DecidableEq

/-- The atomic entry segment of `getAccessToken()` (oauth.ts lines 32–44):
return the cached token if present and not expired; otherwise join the
in-flight promise if any; otherwise start `fetchToken()` (incrementing the
network-fetch counter) and store it as `tokenPromise`. -/
def getTokenStart (now : Int) (s : ManagerState) :
    GetTokenOutcome × ManagerState :=
  match s.storedToken with
  | some tok =>
    if isTokenExpired now tok then getTokenStart.startOrJoin s
    else (.cached tok.accessToken, s)
  | none => getTokenStart.startOrJoin s
where
  /-- lines 39–44: join `tokenPromise` when set, else allocate a new fetch. -/
  startOrJoin (s : ManagerState) : GetTokenOutcome × ManagerState :=
    match s.tokenPromise with
    | some pid => (.awaitPromise pid, s)
    | none =>
      (.awaitPromise s.nextPromiseId,
        { s with
            tokenPromise := some s.nextPromiseId
            fetchCount := s.fetchCount + 1
            nextPromiseId := s.nextPromiseId + 1 })

/-- The tail of `fetchToken()` on success (oauth.ts lines 130–136): stores
the token with expiry `Date.now() + expires_in * 1000` unconditionally —
also when a `clearToken()` happened while the network call was in flight. -/
def fetchTokenCompletes (now : Int) (accessToken : String) (expiresIn : Int)
    (s : ManagerState) : ManagerState :=
  { s with storedToken := some ⟨accessToken, now + expiresIn * 1000⟩ }

/-- Models the `finally { this.tokenPromise = null }` of the initiator (oauth.ts
lines 49–51), run when its `await` on the fetch promise resumes. -/
def getTokenFinally (s : ManagerState) : ManagerState :=
  { s with tokenPromise := none }

/-- Models `clearToken()` (oauth.ts lines 65–68): drop both the cached token and
the in-flight promise reference. -/
def clearToken (s : ManagerState) : ManagerState :=
  { s with storedToken := none, tokenPromise := none }

/-- What a caller of `getAccessToken()` ultimately observes, given an
environment `res` resolving each promise id to the result of its fetch
(`Except` failure = the `TaboolaAuthError` thrown by `fetchToken`). -/
def callerResult (res : Nat → Except String String) :
    GetTokenOutcome → Except String String
  | .cached token => .ok token
  | .awaitPromise pid => res pid

/-! ## HttpClient transport (src/utils/http.ts)

### The `afterResponse` hook (lines 54–73)

On a 401 response the hook awaits `this.authManager.refreshToken()`, sets
the new bearer header, and re-issues the request with `return await
ky(request)` — the *default* ky instance, which carries none of this
hooks of this client, so the reissue can never trigger the hook again (no
recursion), and the default ky behaviour throws `HTTPError` on any non-2xx
reissue response.  Both the refresh and the reissue sit inside one
`try/catch` whose catch runs `throw new TaboolaAuthError("Token refresh failed")`:
a failure of either is replaced by that `TaboolaAuthError`.

We model the hook as a pure function of the incoming response, the outcome
of the refresh call, and the response the reissue would produce, recording
how many refreshes and reissues were performed. -/

/-- An HTTP response as far as the transport logic inspects it: its status,
its `content-type` header and its raw textual body. -/
structure HttpResponse : Type where
  status : Int
  contentType : Option String
  rawBody : String
deriving Repr, DecidableEq

/-- Models `response.ok` in fetch/ky: status in the 2xx range. -/
def HttpResponse.isOkStatus (r : HttpResponse) : Bool :=
  200 ≤ r.status ∧ r.status < 300

/-- What the `afterResponse` hook hands back to the ky pipeline: either a
response, or a thrown error. -/
inductive HookOutcome : Type where
  | pass (resp : HttpResponse)
  | thrown (e : TaboolaErrorModel)

/-- The hook invocation together with its observable side effects. -/
structure HookTrace : Type where
  outcome : HookOutcome
  /-- how many times `authManager.refreshToken()` was called -/
  refreshes : Nat
  /-- how many times the original request was re-issued (`ky(request)`) -/
  reissues : Nat

/-- The `afterResponse` hook (http.ts lines 54–73).  `refreshResult` is the
outcome of `this.authManager.refreshToken()` (`Except` failure = the thrown
`TaboolaAuthError` from the manager); `reissueResp` is the response the
network returns to the single `ky(request)` reissue, which ky turns into an
`HTTPError` rejection when its status is not 2xx. -/
def afterResponseHook (resp : HttpResponse)
    (refreshResult : Except String String) (reissueResp : HttpResponse) :
    HookTrace :=
  if resp.status = 401 then
    match refreshResult with
    | .error _ =>
      { outcome := .thrown (mkTaboolaAuthError "Token refresh failed"),
        refreshes := 1, reissues := 0 }
    | .ok _newToken =>
      if reissueResp.isOkStatus then
        { outcome := .pass reissueResp, refreshes := 1, reissues := 1 }
      else
        { outcome := .thrown (mkTaboolaAuthError "Token refresh failed"),
          refreshes := 1, reissues := 1 }
  else
    { outcome := .pass resp, refreshes := 0, reissues := 0 }

/-! ### Successful-response interpretation in `request` (lines 116–130)

After `this.client[method](path, options)` resolves (a 2xx response), the
code reads the `content-type` header; unless it contains the substring
`application/json` (`contentType?.includes("application/json")`, with the
optional-chaining making a missing header fail the test), it returns
`undefined` without ever calling `response.json()`; otherwise it returns
`await response.json()`, whose JSON parsing may itself reject. -/

/-- Whether `needle` occurs as a contiguous sublist of `haystack`. -/
def listIsInfixOf (needle : List Char) : List Char → Bool
  | [] => needle.isEmpty
  | c :: rest => needle.isPrefixOf (c :: rest) || listIsInfixOf needle rest

/-- JS `haystack.includes(needle)`: substring containment. -/
def strIncludes (haystack needle : String) : Bool :=
  listIsInfixOf needle.data haystack.data

/-- Models `contentType?.includes("application/json")` (http.ts line 126). -/
def isJsonContentType (contentType : Option String) : Bool :=
  match contentType with
  | none => false
  | some ct => strIncludes ct "application/json"

/-- The interpretation of a successful response in `request` (http.ts lines
122–130), parameterised by the JSON parser `parse` standing for
`response.json()` (`Except` failure = the parse rejection): non-JSON
content type yields `undefined` (modelled `none`) without parsing; JSON
content type yields the parsed body. -/
def interpretSuccess (parse : String → Except String JsValue)
    (resp : HttpResponse) : Except String (Option JsValue) :=
  if isJsonContentType resp.contentType then
    (parse resp.rawBody).map some
  else
    .ok none

/-! ## TaboolaClient (src/client.ts)

The constructor validates the credentials, then builds the `HttpClient`
with `baseUrl: config.baseUrl ?? DEFAULT_BASE_URL` (line 140); the
`HttpClient` constructor in turn uses `options.baseUrl ?? DEFAULT_BASE_URL`
as the ky `prefixUrl` (http.ts line 38).  The public getter `baseUrl`
(client.ts lines 163–165) returns the constant `DEFAULT_BASE_URL`,
ignoring the instance entirely. -/

/-- Constant `DEFAULT_BASE_URL` (http.ts line 10). -/
def DEFAULT_BASE_URL : String :=
  "https://backstage.taboola.com/backstage/api/1.0"

/-- The configuration fields of `TaboolaConfig` that the constructor and
the transport read for the claims at hand. -/
structure TaboolaConfig : Type where
  clientId : String
  clientSecret : String
  baseUrl : Option String := none
deriving Repr, DecidableEq

/-- The constructed client, as far as base-URL handling is concerned: the
prefix of the transport is the only place a `baseUrl` override lands. -/
structure TaboolaClientModel : Type where
  clientId : String
  clientSecret : String
  /-- the ky `prefixUrl` inside the `HttpClient` -/
  httpPrefixUrl : String
deriving Repr, DecidableEq

/-- The `TaboolaClient` constructor (client.ts lines 127–158): throws when
`clientId` or `clientSecret` is falsy (the empty string), otherwise wires
the `HttpClient` with `config.baseUrl ?? DEFAULT_BASE_URL` as its prefix. -/
def mkTaboolaClient (config : TaboolaConfig) : Except String TaboolaClientModel :=
  if config.clientId = "" then .error "clientId is required"
  else if config.clientSecret = "" then .error "clientSecret is required"
  else .ok
    { clientId := config.clientId
      clientSecret := config.clientSecret
      httpPrefixUrl := config.baseUrl.getD DEFAULT_BASE_URL }

/-- The public getter `get baseUrl()` (client.ts lines 163–165): returns
the constant, not the transport prefix of the instance. -/
def TaboolaClientModel.baseUrlGetter (_client : TaboolaClientModel) : String :=
  DEFAULT_BASE_URL

/-! ## Theorems -/

/-- Helper: every branch of `parseApiError` carries
`extractErrorMessage response` as its message. -/
theorem parseApiError_message_eq (statusCode : Int) (response : JsValue)
    (url : String) :
    (parseApiError statusCode response url).message
      = extractErrorMessage response := by
  unfold parseApiError
  repeat (first | rfl | split)

/-- Helper: every branch of `parseApiError` carries `some url` as its url. -/
theorem parseApiError_url_eq (statusCode : Int) (response : JsValue)
    (url : String) :
    (parseApiError statusCode response url).url = some url := by
  unfold parseApiError
  repeat (first | rfl | split)

/-- C3: for every status code in {400, 401, 403, 404, 429, 500, 502, 503}
and every response body and url, `parseApiError` returns exactly the
corresponding variant (400 Validation, 401 Auth, 403 Forbidden,
404 NotFound, 429 RateLimit, 500/502/503 Server) with the `statusCode`
field preserved verbatim — in particular 502 and 503 keep their real code
rather than being normalized to 500. -/
theorem parseApiError_known_statuses (body : JsValue) (url : String) :
    ((parseApiError 400 body url).kind = .validation
      ∧ (parseApiError 400 body url).statusCode = some 400)
    ∧ ((parseApiError 401 body url).kind = .auth
      ∧ (parseApiError 401 body url).statusCode = some 401)
    ∧ ((parseApiError 403 body url).kind = .forbidden
      ∧ (parseApiError 403 body url).statusCode = some 403)
    ∧ ((parseApiError 404 body url).kind = .notFound
      ∧ (parseApiError 404 body url).statusCode = some 404)
    ∧ ((parseApiError 429 body url).kind = .rateLimit
      ∧ (parseApiError 429 body url).statusCode = some 429)
    ∧ ((parseApiError 500 body url).kind = .server
      ∧ (parseApiError 500 body url).statusCode = some 500)
    ∧ ((parseApiError 502 body url).kind = .server
      ∧ (parseApiError 502 body url).statusCode = some 502)
    ∧ ((parseApiError 503 body url).kind = .server
      ∧ (parseApiError 503 body url).statusCode = some 503) :=
  ⟨⟨rfl, rfl⟩, ⟨rfl, rfl⟩, ⟨rfl, rfl⟩, ⟨rfl, rfl⟩,
   ⟨rfl, rfl⟩, ⟨rfl, rfl⟩, ⟨rfl, rfl⟩, ⟨rfl, rfl⟩⟩

/-- The message-precedence policy stated in the words of the spec (claim
C5): `body.message` when it is a string; else `body.error` when it is a
string; else `body.error_description` when it is a string; else the literal
"Unknown error" — with every field absent on a null, undefined, or
non-object body, so those always yield "Unknown error". -/
def specMessagePrecedence (body : JsValue) : String :=
  match body.getField "message" with
  | some (.str m) => m
  | _ =>
    match body.getField "error" with
    | some (.str e) => e
    | _ =>
      match body.getField "error_description" with
      | some (.str d) => d
      | _ => "Unknown error"

/-- Helper: the source extraction coincides with the message-precedence
policy of the spec (the truthy-object guard of the source is redundant,
since field access on a non-object yields undefined anyway). -/
theorem extractErrorMessage_eq_spec (body : JsValue) :
    extractErrorMessage body = specMessagePrecedence body := by
  cases body <;> rfl

/-- C5: for every status code and url, the message of the error returned by
`parseApiError` follows the precedence `body.message` (string), else
`body.error` (string), else `body.error_description` (string), else
"Unknown error"; a null, undefined, or non-object body always yields
"Unknown error" (those have no fields, so `specMessagePrecedence` returns
the fallback on them definitionally). -/
theorem parseApiError_message_precedence (statusCode : Int) (body : JsValue)
    (url : String) :
    (parseApiError statusCode body url).message = specMessagePrecedence body :=
  (parseApiError_message_eq statusCode body url).trans
    (extractErrorMessage_eq_spec body)

/-- C6 counterexample: 600 lies outside
{400, 401, 403, 404, 429} ∪ [500, 599], so the claim predicts the Generic
variant; but the default branch of the source tests `statusCode >= 500`
with no upper bound, so `parseApiError(600, null, "u")` is a Server error,
not a Generic one. -/
theorem parseApiError_600_not_generic :
    (parseApiError 600 JsValue.null "u").kind = ErrorKind.server
    ∧ (parseApiError 600 JsValue.null "u").kind ≠ ErrorKind.generic :=
  ⟨rfl, by decide⟩

/-- C6 amended: for every status code outside {400, 401, 403, 404, 429}
and below 500, `parseApiError` returns the Generic variant (the base error)
with that status code preserved; every status at or above 500 — including
those above 599 — returns the Server variant instead. -/
theorem parseApiError_unrecognized_generic (statusCode : Int) (body : JsValue)
    (url : String)
    (h400 : statusCode ≠ 400) (h401 : statusCode ≠ 401)
    (h403 : statusCode ≠ 403) (h404 : statusCode ≠ 404)
    (h429 : statusCode ≠ 429) (hlt : statusCode < 500) :
    (parseApiError statusCode body url).kind = ErrorKind.generic
    ∧ (parseApiError statusCode body url).statusCode = some statusCode := by
  have hge : ¬ statusCode ≥ 500 := by omega
  simp [parseApiError, h400, h401, h403, h404, h429, hge]

/-- C6 witness: at the claim's own example 418, the amended theorem applies
and yields the Generic variant with status 418. -/
theorem parseApiError_unrecognized_generic_witness :
    (parseApiError 418 JsValue.null "u").kind = ErrorKind.generic
    ∧ (parseApiError 418 JsValue.null "u").statusCode = some 418 :=
  parseApiError_unrecognized_generic 418 JsValue.null "u"
    (by decide) (by decide) (by decide) (by decide) (by decide) (by decide)

/-- C8: variant-specific extra fields.  For every body and url:
`parseApiError(400, body, url)` carries `body.errors` verbatim as
`fieldErrors` when that field is an object, and no `fieldErrors` when the
field is absent; `parseApiError(429, body, url)` carries `body.retry_after`
as `retryAfter` when that field is a number, and no `retryAfter` when it is
absent. -/
theorem parseApiError_extra_fields (body : JsValue) (url : String) :
    (∀ e, body.getField "errors" = some (JsValue.obj e) →
      (parseApiError 400 body url).fieldErrors = some (JsValue.obj e))
    ∧ (body.getField "errors" = none →
      (parseApiError 400 body url).fieldErrors = none)
    ∧ (∀ n, body.getField "retry_after" = some (JsValue.num n) →
      (parseApiError 429 body url).retryAfter = some n)
    ∧ (body.getField "retry_after" = none →
      (parseApiError 429 body url).retryAfter = none) := by
  refine ⟨?_, ?_, ?_, ?_⟩
  · intro e he
    cases body
    case obj fields =>
      simp only [JsValue.getField] at he
      simp [parseApiError, extractFieldErrors, JsValue.getField,
        JsValue.isTruthyObject, he]
    all_goals simp [JsValue.getField] at he
  · intro he
    cases body
    case obj fields =>
      simp only [JsValue.getField] at he
      simp [parseApiError, extractFieldErrors, JsValue.getField,
        JsValue.isTruthyObject, he]
    all_goals rfl
  · intro n hn
    cases body
    case obj fields =>
      simp only [JsValue.getField] at hn
      simp [parseApiError, extractRetryAfter, JsValue.getField,
        JsValue.isTruthyObject, hn]
    all_goals simp [JsValue.getField] at hn
  · intro hn
    cases body
    case obj fields =>
      simp only [JsValue.getField] at hn
      simp [parseApiError, extractRetryAfter, JsValue.getField,
        JsValue.isTruthyObject, hn]
    all_goals rfl

/-- C8 witness: a 400 body carrying an `errors` object and a 429 body
carrying a numeric `retry_after`, next to bodies lacking these fields. -/
theorem parseApiError_extra_fields_witness :
    ((parseApiError 400
        (JsValue.obj [("errors", JsValue.obj [("name", JsValue.str "bad")])])
        "u").fieldErrors
      = some (JsValue.obj [("name", JsValue.str "bad")]))
    ∧ (parseApiError 400 (JsValue.obj []) "u").fieldErrors = none
    ∧ (parseApiError 429
        (JsValue.obj [("retry_after", JsValue.num 30)]) "u").retryAfter
      = some 30
    ∧ (parseApiError 429 (JsValue.obj []) "u").retryAfter = none :=
  ⟨(parseApiError_extra_fields
      (JsValue.obj [("errors", JsValue.obj [("name", JsValue.str "bad")])])
      "u").1 [("name", JsValue.str "bad")] rfl,
   (parseApiError_extra_fields (JsValue.obj []) "u").2.1 rfl,
   (parseApiError_extra_fields
      (JsValue.obj [("retry_after", JsValue.num 30)]) "u").2.2.1 30 rfl,
   (parseApiError_extra_fields (JsValue.obj []) "u").2.2.2 rfl⟩

/-- C4: token expiry buffer.  For a manager holding a token stored at time
`t` with `expires_in = E` (so `expiresAt = t + E * 1000`), `getToken()` at
time `now` returns the cached token immediately, leaving the state (and in
particular the network-fetch counter) untouched, exactly when
`now < t + E * 1000 - TOKEN_EXPIRY_BUFFER_MS` (the 5-minute buffer);
conversely a cached return only happens below that bound, and from
`now ≥ t + E * 1000 - TOKEN_EXPIRY_BUFFER_MS` on, a `getToken()` with no
fetch in flight triggers a refresh fetch. -/
theorem getToken_expiry_buffer (now t E : Int) (v : String) (s : ManagerState)
    (hstored : s.storedToken = some ⟨v, t + E * 1000⟩) :
    (now < t + E * 1000 - TOKEN_EXPIRY_BUFFER_MS →
      getTokenStart now s = (.cached v, s))
    ∧ ((getTokenStart now s).fst = .cached v →
      now < t + E * 1000 - TOKEN_EXPIRY_BUFFER_MS)
    ∧ (s.tokenPromise = none → now ≥ t + E * 1000 - TOKEN_EXPIRY_BUFFER_MS →
      (getTokenStart now s).snd.fetchCount = s.fetchCount + 1) := by
  refine ⟨?_, ?_, ?_⟩
  · intro hlt
    have hexp : isTokenExpired now ⟨v, t + E * 1000⟩ = false := by
      simp only [isTokenExpired, decide_eq_false_iff_not]
      omega
    simp [getTokenStart, hstored, hexp]
  · intro hc
    by_contra hge
    have hexp : isTokenExpired now ⟨v, t + E * 1000⟩ = true := by
      simp only [isTokenExpired, decide_eq_true_eq]
      omega
    rw [show getTokenStart now s
          = getTokenStart.startOrJoin s by simp [getTokenStart, hstored, hexp]]
      at hc
    unfold getTokenStart.startOrJoin at hc
    rcases h : s.tokenPromise with _ | pid <;> rw [h] at hc <;> simp at hc
  · intro hp hge
    have hexp : isTokenExpired now ⟨v, t + E * 1000⟩ = true := by
      simp only [isTokenExpired, decide_eq_true_eq]
      omega
    simp [getTokenStart, hstored, hexp, getTokenStart.startOrJoin, hp]

/-- C4 witness: with `expires_in = 3600` stored at `t = 0`, the cached
token is still returned (with no fetch) at `now = 3000` seconds, and a
refresh fetch is triggered at `now = 3300` seconds. -/
theorem getToken_expiry_buffer_witness :
    (getTokenStart 3000000
        ⟨some ⟨"tok", 0 + 3600 * 1000⟩, none, 0, 0⟩
      = (.cached "tok", ⟨some ⟨"tok", 0 + 3600 * 1000⟩, none, 0, 0⟩))
    ∧ (getTokenStart 3300000
        ⟨some ⟨"tok", 0 + 3600 * 1000⟩, none, 0, 0⟩).snd.fetchCount = 0 + 1 :=
  ⟨(getToken_expiry_buffer 3000000 0 3600 "tok"
      ⟨some ⟨"tok", 0 + 3600 * 1000⟩, none, 0, 0⟩ rfl).1 (by decide),
   (getToken_expiry_buffer 3300000 0 3600 "tok"
      ⟨some ⟨"tok", 0 + 3600 * 1000⟩, none, 0, 0⟩ rfl).2.2 rfl (by decide)⟩

/-- C1: single-flight token fetching.  From any state with no valid cached
token (`hvalid`) and no fetch in flight (`hp`), two `getToken()` calls
whose entry segments both run before the fetch resolves cause exactly one
network fetch: the counter advances by one, both callers await the same
newly allocated promise, and therefore — whatever result `res` that
promise eventually resolves or rejects with — both observe the same token
string or the same failure. -/
theorem getToken_single_flight (now₁ now₂ : Int) (s : ManagerState)
    (hnow : now₁ ≤ now₂)
    (hvalid : ∀ tok, s.storedToken = some tok → isTokenExpired now₁ tok = true)
    (hp : s.tokenPromise = none) :
    (getTokenStart now₂ (getTokenStart now₁ s).snd).snd.fetchCount
        = s.fetchCount + 1
    ∧ (getTokenStart now₁ s).fst = .awaitPromise s.nextPromiseId
    ∧ (getTokenStart now₂ (getTokenStart now₁ s).snd).fst
        = .awaitPromise s.nextPromiseId
    ∧ ∀ res : Nat → Except String String,
        callerResult res (getTokenStart now₁ s).fst
          = callerResult res
              (getTokenStart now₂ (getTokenStart now₁ s).snd).fst := by
  have h1 : getTokenStart now₁ s
      = (.awaitPromise s.nextPromiseId,
         { s with
             tokenPromise := some s.nextPromiseId
             fetchCount := s.fetchCount + 1
             nextPromiseId := s.nextPromiseId + 1 }) := by
    rcases hst : s.storedToken with _ | tok
    · simp [getTokenStart, hst, getTokenStart.startOrJoin, hp]
    · have := hvalid tok hst
      simp [getTokenStart, hst, this, getTokenStart.startOrJoin, hp]
  have h2 : getTokenStart now₂ (getTokenStart now₁ s).snd
      = (.awaitPromise s.nextPromiseId, (getTokenStart now₁ s).snd) := by
    rw [h1]
    rcases hst : s.storedToken with _ | tok
    · simp [getTokenStart, hst, getTokenStart.startOrJoin]
    · have hexp₁ := hvalid tok hst
      have hexp₂ : isTokenExpired now₂ tok = true := by
        simp only [isTokenExpired, decide_eq_true_eq] at hexp₁ ⊢
        omega
      simp [getTokenStart, hst, hexp₂, getTokenStart.startOrJoin]
  rw [h1] at h2 ⊢
  rw [h2]
  exact ⟨rfl, rfl, rfl, fun res => rfl⟩

/-- C1 witness: from the fresh manager state (no token, nothing in
flight), two immediate `getToken()` calls allocate fetch 0 and share it. -/
theorem getToken_single_flight_witness :
    (getTokenStart 0 (getTokenStart 0 ⟨none, none, 0, 0⟩).snd).snd.fetchCount
        = 0 + 1
    ∧ (getTokenStart 0 ⟨none, none, 0, 0⟩).fst = .awaitPromise 0
    ∧ (getTokenStart 0 (getTokenStart 0 ⟨none, none, 0, 0⟩).snd).fst
        = .awaitPromise 0
    ∧ ∀ res : Nat → Except String String,
        callerResult res (getTokenStart 0 ⟨none, none, 0, 0⟩).fst
          = callerResult res
              (getTokenStart 0 (getTokenStart 0 ⟨none, none, 0, 0⟩).snd).fst :=
  getToken_single_flight 0 0 ⟨none, none, 0, 0⟩ (by decide)
    (fun tok h => by cases h) rfl

/-- C7 counterexample: a concrete interleaving in which a `getToken()`
issued after `clear()` returns the token produced by a fetch initiated
before the `clear()`.  Trace: from the fresh state, `getToken()` at time 0
initiates fetch 0 (the only fetch ever initiated — the final counter is
still 1); `clearToken()` runs while that fetch is in flight; the pre-clear
fetch then completes at time 1000 and — per oauth.ts lines 130–136 —
unconditionally stores its token into the cache; the initiating frame
resumes and nulls the promise; a subsequent `getToken()` at time 2000 now
finds a valid cached token and returns `"preClearToken"`, the result of
the pre-clear fetch, contradicting the claim that it never would. -/
theorem getToken_after_clear_reuses_preclear_fetch :
    (getTokenStart 2000
        (getTokenFinally
          (fetchTokenCompletes 1000 "preClearToken" 3600
            (clearToken (getTokenStart 0 ⟨none, none, 0, 0⟩).snd)))).fst
      = .cached "preClearToken"
    ∧ (getTokenStart 2000
        (getTokenFinally
          (fetchTokenCompletes 1000 "preClearToken" 3600
            (clearToken (getTokenStart 0 ⟨none, none, 0, 0⟩).snd)))).snd.fetchCount
      = 1 := by
  constructor <;> rfl

/-- C7 amended: `clear()` discards both the cached token and the in-flight
marker, so the `getToken()` that follows it never joins a pre-clear
in-flight fetch — it always initiates a fresh fetch under a newly
allocated promise id, advancing the fetch counter.  (A fetch initiated
before the `clear()` that completes afterwards still repopulates the
cache, so a later `getToken()` may return its token — the part of the
claim refuted by the counterexample.) -/
theorem getToken_after_clear_starts_fresh_fetch (now : Int) (s : ManagerState) :
    getTokenStart now (clearToken s)
      = (.awaitPromise s.nextPromiseId,
         { storedToken := none
           tokenPromise := some s.nextPromiseId
           fetchCount := s.fetchCount + 1
           nextPromiseId := s.nextPromiseId + 1 }) :=
  rfl

/-- C2: auth-recovery retry.  For every response whose final status after
the transient-retry layer is 401, the `afterResponse` hook performs
exactly one forced token refresh and at most one reissue of the request;
the reissue happens exactly when the refresh succeeded.  If the reissue
also returns 401 the caller receives an Auth-kind error (statusCode 401),
and if the refresh itself fails the caller receives the `TaboolaAuthError`
with message "Token refresh failed" — never the original 401 response. -/
theorem afterResponseHook_auth_recovery (resp : HttpResponse)
    (refreshResult : Except String String) (reissueResp : HttpResponse)
    (h401 : resp.status = 401) :
    (afterResponseHook resp refreshResult reissueResp).refreshes = 1
    ∧ (afterResponseHook resp refreshResult reissueResp).reissues ≤ 1
    ∧ (∀ tok, refreshResult = .ok tok →
        (afterResponseHook resp refreshResult reissueResp).reissues = 1)
    ∧ (∀ tok, refreshResult = .ok tok → reissueResp.status = 401 →
        ∃ e, (afterResponseHook resp refreshResult reissueResp).outcome
            = .thrown e
          ∧ e.kind = .auth ∧ e.statusCode = some 401
          ∧ e.message = "Token refresh failed")
    ∧ (∀ msg, refreshResult = .error msg →
        (afterResponseHook resp refreshResult reissueResp).outcome
            = .thrown (mkTaboolaAuthError "Token refresh failed")
          ∧ (afterResponseHook resp refreshResult reissueResp).reissues = 0) := by
  rcases refreshResult with msg | tok
  · refine ⟨?_, ?_, ?_, ?_, ?_⟩ <;>
      simp [afterResponseHook, h401]
  · have hok₄₀₁ : reissueResp.status = 401 →
        reissueResp.isOkStatus = false := by
      intro h
      simp only [HttpResponse.isOkStatus, h]
      decide
    refine ⟨?_, ?_, ?_, ?_, ?_⟩
    · by_cases hok : reissueResp.isOkStatus <;>
        simp [afterResponseHook, h401, hok]
    · by_cases hok : reissueResp.isOkStatus <;>
        simp [afterResponseHook, h401, hok]
    · intro tok' _
      by_cases hok : reissueResp.isOkStatus <;>
        simp [afterResponseHook, h401, hok]
    · intro tok' _ h401'
      refine ⟨mkTaboolaAuthError "Token refresh failed", ?_, rfl, rfl, rfl⟩
      simp [afterResponseHook, h401, hok₄₀₁ h401']
    · intro msg h
      cases h

/-- C2 witness: a 401 response with a successful refresh and a reissue
that returns 401 again — one refresh, one reissue, and a thrown Auth-kind
error with message "Token refresh failed". -/
theorem afterResponseHook_auth_recovery_witness :
    (afterResponseHook ⟨401, none, ""⟩ (.ok "newTok") ⟨401, none, ""⟩).refreshes
      = 1
    ∧ (afterResponseHook ⟨401, none, ""⟩ (.ok "newTok") ⟨401, none, ""⟩).reissues
      = 1
    ∧ ∃ e, (afterResponseHook ⟨401, none, ""⟩ (.ok "newTok")
          ⟨401, none, ""⟩).outcome = .thrown e
        ∧ e.kind = .auth ∧ e.statusCode = some 401
        ∧ e.message = "Token refresh failed" :=
  ⟨(afterResponseHook_auth_recovery ⟨401, none, ""⟩ (.ok "newTok")
      ⟨401, none, ""⟩ rfl).1,
   (afterResponseHook_auth_recovery ⟨401, none, ""⟩ (.ok "newTok")
      ⟨401, none, ""⟩ rfl).2.2.1 "newTok" rfl,
   (afterResponseHook_auth_recovery ⟨401, none, ""⟩ (.ok "newTok")
      ⟨401, none, ""⟩ rfl).2.2.2.1 "newTok" rfl rfl⟩

/-- C9: empty-body handling.  For every successful final response whose
content-type header does not include `application/json` (a missing header
included), `request()` returns the empty result `none` without attempting
to parse the body — for any parser, even one that always rejects, so no
parse error can surface; when the content-type does include
`application/json`, the parsed JSON body is returned. -/
theorem request_empty_body_handling (parse : String → Except String JsValue)
    (resp : HttpResponse) :
    (isJsonContentType resp.contentType = false →
      interpretSuccess parse resp = .ok none)
    ∧ (∀ v, isJsonContentType resp.contentType = true →
        parse resp.rawBody = .ok v →
        interpretSuccess parse resp = .ok (some v)) := by
  constructor
  · intro h
    simp [interpretSuccess, h]
  · intro v h hv
    simp only [interpretSuccess, h, if_true, hv]
    rfl

/-- C9 witness: a 204-style response with content-type `text/html` yields
`none` even under a parser that always rejects; a JSON response yields its
parsed body. -/
theorem request_empty_body_handling_witness :
    (interpretSuccess (fun _ => .error "invalid json")
        ⟨200, some "text/html", "<!doctype html>"⟩
      = .ok none)
    ∧ (interpretSuccess (fun _ => .ok (JsValue.obj []))
        ⟨200, some "application/json", "{}"⟩
      = .ok (some (JsValue.obj []))) :=
  ⟨(request_empty_body_handling (fun _ => .error "invalid json")
      ⟨200, some "text/html", "<!doctype html>"⟩).1 (by decide),
   (request_empty_body_handling (fun _ => .ok (JsValue.obj []))
      ⟨200, some "application/json", "{}"⟩).2 (JsValue.obj [])
      (by decide) rfl⟩

/-- C10: for every configuration accepted by the `TaboolaClient`
constructor, the public `baseUrl` getter returns the default production
base URL constant regardless of any `baseUrl` override, while the override
(when supplied) is what lands in the transport request prefix. -/
theorem client_baseUrl_getter_constant (config : TaboolaConfig)
    (client : TaboolaClientModel)
    (h : mkTaboolaClient config = .ok client) :
    client.baseUrlGetter = DEFAULT_BASE_URL
    ∧ client.httpPrefixUrl = config.baseUrl.getD DEFAULT_BASE_URL := by
  refine ⟨rfl, ?_⟩
  unfold mkTaboolaClient at h
  by_cases h1 : config.clientId = "" <;> by_cases h2 : config.clientSecret = "" <;>
    simp [h1, h2] at h
  rw [← h]

/-- C10 witness: a client constructed with a `baseUrl` override still
reports the default production URL through the getter, while its
transport prefix is the override. -/
theorem client_baseUrl_getter_constant_witness :
    mkTaboolaClient
        ⟨"id", "secret", some "https://sandbox.example.test/api"⟩
      = .ok ⟨"id", "secret", "https://sandbox.example.test/api"⟩
    ∧ (TaboolaClientModel.baseUrlGetter
        ⟨"id", "secret", "https://sandbox.example.test/api"⟩
      = DEFAULT_BASE_URL)
    ∧ (TaboolaClientModel.httpPrefixUrl
        ⟨"id", "secret", "https://sandbox.example.test/api"⟩
      = "https://sandbox.example.test/api") :=
  ⟨rfl,
   (client_baseUrl_getter_constant
      ⟨"id", "secret", some "https://sandbox.example.test/api"⟩
      ⟨"id", "secret", "https://sandbox.example.test/api"⟩ rfl).1,
   ((client_baseUrl_getter_constant
      ⟨"id", "secret", some "https://sandbox.example.test/api"⟩
      ⟨"id", "secret", "https://sandbox.example.test/api"⟩ rfl).2).trans rfl⟩
